import Mathlib

/-!
Shallow embedding of `src/index.ts` of the nci-pdc-mcp-server repository.

The repository exposes one forwarding function, `executePdcGraphQLQuery`
(src/index.ts lines 64-159), and one HTTP routing handler, the default
exported `fetch` (lines 176-198).  JavaScript JSON values are modelled by
the inductive `Json`; the outcome of the outbound `fetch` call is modelled
by `FetchOutcome`: either an HTTP response (status, content-type header,
raw body text, and the optional result of parsing the body as JSON,
`none` meaning `response.json()` throws) or a thrown transport exception.
-/

/-- JavaScript JSON values as exchanged with the upstream API. -/
inductive Json where
  | null
  | bool (b : Bool)
  | num (n : Int)
  | str (s : String)
  | arr (xs : List Json)
  | obj (fields : List (String × Json))
deriving Repr

/-- Field lookup in a JSON object, modelling JavaScript property access. -/
def lookupField : List (String × Json) → String → Option Json
  | [], _ => none
  | (k, v) :: rest, key => if k == key then some v else lookupField rest key

/-- Model of JavaScript `s.slice(0, n)` on strings. -/
def strSlice (s : String) (n : Nat) : String := String.mk (s.data.take n)

/-- Helper for `strIncludes`: does `pat` occur as a contiguous run in `s`? -/
def listIncludes (pat : List Char) : List Char → Bool
  | [] => pat.isEmpty
  | c :: rest => List.isPrefixOf pat (c :: rest) || listIncludes pat rest

/-- Model of JavaScript `s.includes(pat)` on strings. -/
def strIncludes (s pat : String) : Bool := listIncludes pat.data s.data

/-- Model of JavaScript `s.startsWith(pat)` on strings. -/
def strStartsWith (s pat : String) : Bool := List.isPrefixOf pat.data s.data

/-- The raw HTTP response of the upstream call (src/index.ts lines 79-88):
status code, the `content-type` header (`none` when absent, mirroring
`response.headers.get` returning `null`), the body as text (what
`response.text()` yields), and the result of parsing the body as JSON
(`some` when `response.json()` succeeds, `none` when it throws). -/
structure HttpResponse where
  status : Nat
  contentType : Option String
  bodyText : String
  bodyJson : Option Json

/-- A JavaScript value thrown during the `fetch` call: either an `Error`
instance carrying a `message`, or any other value, carried as its
`String(error)` form (src/index.ts lines 145-149). -/
inductive JsThrown where
  | errorInstance (message : String)
  | otherValue (stringForm : String)

/-- The modelled outcome of the outbound `fetch` call: an HTTP response,
or a thrown transport exception (connection refused, timeout, DNS or TLS
failure). -/
inductive FetchOutcome where
  | response (r : HttpResponse)
  | thrown (e : JsThrown)

/-- src/index.ts line 16: the fixed upstream endpoint. -/
def PDC_GRAPHQL_ENDPOINT : String := "https://pdc.cancer.gov/graphql"

/-- src/index.ts lines 66-69: the fixed outbound request headers. -/
def requestHeaders : List (String × String) :=
  [("Content-Type", "application/json"),
   ("User-Agent", "MCPNciPdcServer/0.1.0 (ModelContextProtocol; +https://modelcontextprotocol.io)")]

/-- src/index.ts lines 71-74: `const bodyData = { query }; if (variables)
bodyData.variables = variables;` — the JSON request body sent upstream.
`variables` is `none` when the optional parameter is absent. -/
def bodyData (query : String) (vars : Option (List (String × Json))) :
    List (String × Json) :=
  match vars with
  | none => [("query", Json.str query)]
  | some vs => [("query", Json.str query), ("variables", Json.obj vs)]

/-- The `{ errors: [ { message, extensions } ] }` shape every synthesized
error return of `executePdcGraphQLQuery` has. -/
def mkErrorEnvelope (message : String) (extensions : List (String × Json)) : Json :=
  Json.obj [("errors", Json.arr [Json.obj
    [("message", Json.str message), ("extensions", Json.obj extensions)]])]

/-- src/index.ts line 89: `contentType && contentType.includes("application/json")`.
A `null` header and the empty string are falsy in JavaScript. -/
def isJsonContentType : Option String → Bool
  | none => false
  | some s => (!(s == "")) && strIncludes s "application/json"

/-- The header value as embedded into error extensions (src/index.ts
line 115): JavaScript `null` becomes JSON `null`. -/
def jsonOfContentType : Option String → Json
  | none => Json.null
  | some s => Json.str s

/-- Model of `response.ok`: status in the inclusive range 200-299. -/
def statusOk (status : Nat) : Bool := 200 ≤ status && status ≤ 299

/-- src/index.ts lines 145-149: the message of the synthesized client
error: `error.message` when the thrown value is an `Error`, else
`String(error)`. -/
def clientErrorMessage : JsThrown → String
  | JsThrown.errorInstance m => m
  | JsThrown.otherValue s => s

/-- src/index.ts lines 64-159: the forwarding function, as a function of
the request and the modelled outcome of the single `fetch` call.  Each
branch mirrors one return statement of the source. -/
def executePdcGraphQLQuery (query : String)
    (vars : Option (List (String × Json))) (outcome : FetchOutcome) : Json :=
  let _requestBody := bodyData query vars
  match outcome with
  | FetchOutcome.response r =>
    if isJsonContentType r.contentType then
      match r.bodyJson with
      | none =>
        mkErrorEnvelope
          ("NCI PDC API Error " ++ toString r.status ++ ": Failed to parse JSON response.")
          [("statusCode", Json.num r.status),
           ("responseText", Json.str (strSlice r.bodyText 1000))]
      | some responseBody =>
        if statusOk r.status then
          responseBody
        else
          mkErrorEnvelope ("NCI PDC API HTTP Error " ++ toString r.status)
            [("statusCode", Json.num r.status),
             ("responseBody", responseBody)]
    else
      mkErrorEnvelope
        ("NCI PDC API Error " ++ toString r.status ++ ": Non-JSON response received.")
        [("statusCode", Json.num r.status),
         ("contentType", jsonOfContentType r.contentType),
         ("responseText", Json.str (strSlice r.bodyText 1000))]
  | FetchOutcome.thrown e =>
    mkErrorEnvelope (clientErrorMessage e) [("clientError", Json.bool true)]

/-- Does a result carry a non-empty `errors` array? -/
def hasErrorsArray (j : Json) : Bool :=
  match j with
  | Json.obj fields =>
    match lookupField fields "errors" with
    | some (Json.arr (_ :: _)) => true
    | _ => false
  | _ => false

/-- Extract `errors[0].extensions.responseText` from a result. -/
def errorResponseText (j : Json) : Option Json :=
  match j with
  | Json.obj fields =>
    match lookupField fields "errors" with
    | some (Json.arr (Json.obj entry :: _)) =>
      match lookupField entry "extensions" with
      | some (Json.obj ext) => lookupField ext "responseText"
      | _ => none
    | _ => none
  | _ => none

/-- An HTTP response of the inbound routing layer: status, `Content-Type`
header, body text. -/
structure ServerResponse where
  status : Nat
  contentType : Option String
  body : String
deriving DecidableEq, Repr

/-- What the exported `fetch` handler does with an inbound request:
delegate to the SSE streaming transport, or answer directly. -/
inductive RouteResult where
  | sse
  | plain (resp : ServerResponse)
deriving DecidableEq, Repr

/-- src/index.ts lines 191-197: the fixed 404 body. -/
def notFoundBody : String :=
  "NCI PDC MCP Server - Path not found.\nAvailable MCP paths:\n- /sse (for Server-Sent Events transport)"

/-- src/index.ts lines 176-198: the exported `fetch` handler as a function
of the request URL's pathname. -/
def fetchHandler (pathname : String) : RouteResult :=
  if pathname == "/sse" || strStartsWith pathname "/sse/" then
    RouteResult.sse
  else
    RouteResult.plain ⟨404, some "text/plain", notFoundBody⟩

theorem hasErrorsArray_mkErrorEnvelope (m : String) (ext : List (String × Json)) :
    hasErrorsArray (mkErrorEnvelope m ext) = true := rfl

theorem executePdc_thrown (query : String) (vars : Option (List (String × Json)))
    (e : JsThrown) :
    executePdcGraphQLQuery query vars (FetchOutcome.thrown e) =
      mkErrorEnvelope (clientErrorMessage e) [("clientError", Json.bool true)] := rfl

theorem executePdc_nonJson (query : String) (vars : Option (List (String × Json)))
    (r : HttpResponse) (hct : isJsonContentType r.contentType = false) :
    executePdcGraphQLQuery query vars (FetchOutcome.response r) =
      mkErrorEnvelope
        ("NCI PDC API Error " ++ toString r.status ++ ": Non-JSON response received.")
        [("statusCode", Json.num r.status),
         ("contentType", jsonOfContentType r.contentType),
         ("responseText", Json.str (strSlice r.bodyText 1000))] := by
  simp [executePdcGraphQLQuery, hct]

theorem executePdc_parseFail (query : String) (vars : Option (List (String × Json)))
    (r : HttpResponse) (hct : isJsonContentType r.contentType = true)
    (hb : r.bodyJson = none) :
    executePdcGraphQLQuery query vars (FetchOutcome.response r) =
      mkErrorEnvelope
        ("NCI PDC API Error " ++ toString r.status ++ ": Failed to parse JSON response.")
        [("statusCode", Json.num r.status),
         ("responseText", Json.str (strSlice r.bodyText 1000))] := by
  simp [executePdcGraphQLQuery, hct, hb]

theorem executePdc_httpError (query : String) (vars : Option (List (String × Json)))
    (r : HttpResponse) (b : Json) (hct : isJsonContentType r.contentType = true)
    (hb : r.bodyJson = some b) (hs : statusOk r.status = false) :
    executePdcGraphQLQuery query vars (FetchOutcome.response r) =
      mkErrorEnvelope ("NCI PDC API HTTP Error " ++ toString r.status)
        [("statusCode", Json.num r.status),
         ("responseBody", b)] := by
  simp [executePdcGraphQLQuery, hct, hb, hs]

theorem executePdc_success (query : String) (vars : Option (List (String × Json)))
    (r : HttpResponse) (b : Json) (hct : isJsonContentType r.contentType = true)
    (hb : r.bodyJson = some b) (hs : statusOk r.status = true) :
    executePdcGraphQLQuery query vars (FetchOutcome.response r) = b := by
  simp [executePdcGraphQLQuery, hct, hb, hs]

/-- C1: for every query, optional variables mapping, and modelled upstream
outcome (any status, content-type, body, or thrown transport exception),
`executePdcGraphQLQuery` returns a Result Envelope value — either the
parsed upstream body on the success path, or an object carrying a
non-empty `errors` array on every failure path — and, being a total
function of the modelled outcome, never propagates an exception. -/
theorem pdcQuery_always_returns_envelope (query : String)
    (vars : Option (List (String × Json))) (outcome : FetchOutcome) :
    (∃ r b, outcome = FetchOutcome.response r ∧ r.bodyJson = some b ∧
        isJsonContentType r.contentType = true ∧ statusOk r.status = true ∧
        executePdcGraphQLQuery query vars outcome = b) ∨
    hasErrorsArray (executePdcGraphQLQuery query vars outcome) = true := by
  cases outcome with
  | thrown e =>
    exact Or.inr (by rw [executePdc_thrown]; exact hasErrorsArray_mkErrorEnvelope _ _)
  | response r =>
    cases hct : isJsonContentType r.contentType with
    | false =>
      exact Or.inr
        (by rw [executePdc_nonJson query vars r hct]; exact hasErrorsArray_mkErrorEnvelope _ _)
    | true =>
      cases hb : r.bodyJson with
      | none =>
        exact Or.inr
          (by rw [executePdc_parseFail query vars r hct hb];
              exact hasErrorsArray_mkErrorEnvelope _ _)
      | some b =>
        cases hs : statusOk r.status with
        | false =>
          exact Or.inr
            (by rw [executePdc_httpError query vars r b hct hb hs];
                exact hasErrorsArray_mkErrorEnvelope _ _)
        | true =>
          exact Or.inl ⟨r, b, rfl, hb, hct, hs, executePdc_success query vars r b hct hb hs⟩

/-- C2: for every upstream response with a 2xx status, a content-type
declaring JSON, and a body that parses as JSON, the forwarder returns the
parsed body itself, unmodified, including any `data` or `errors` fields
it contains. -/
theorem pdcQuery_passthrough (query : String) (vars : Option (List (String × Json)))
    (r : HttpResponse) (b : Json) (hct : isJsonContentType r.contentType = true)
    (hb : r.bodyJson = some b) (hs : statusOk r.status = true) :
    executePdcGraphQLQuery query vars (FetchOutcome.response r) = b :=
  executePdc_success query vars r b hct hb hs

/-- C2 witness: HTTP 200 with JSON body having a `data` field with `x = 1`
passes through exactly. -/
theorem pdcQuery_passthrough_witness :
    executePdcGraphQLQuery "q" none (FetchOutcome.response
      ⟨200, some "application/json", "",
        some (Json.obj [("data", Json.obj [("x", Json.num 1)])])⟩) =
      Json.obj [("data", Json.obj [("x", Json.num 1)])] :=
  pdcQuery_passthrough "q" none _ _ (by decide) rfl (by decide)

/-- C6: every exception thrown during the outbound call is caught and
converted to an envelope whose single error message is the exception's
`message` (for an `Error` instance) or its string form (otherwise), with
extensions exactly containing `clientError = true`. -/
theorem pdcQuery_clientError (query : String) (vars : Option (List (String × Json)))
    (e : JsThrown) (m s : String) :
    executePdcGraphQLQuery query vars (FetchOutcome.thrown e) =
      Json.obj [("errors", Json.arr [Json.obj
        [("message", Json.str (clientErrorMessage e)),
         ("extensions", Json.obj [("clientError", Json.bool true)])]])] ∧
    clientErrorMessage (JsThrown.errorInstance m) = m ∧
    clientErrorMessage (JsThrown.otherValue s) = s :=
  ⟨rfl, rfl, rfl⟩

/-- C8: the JSON request body sent upstream carries `query` verbatim as
its `query` field, and carries a `variables` field exactly when the
optional variables mapping was provided (in which case it is that
mapping). -/
theorem pdcQuery_bodyData_fields (query : String)
    (vars : Option (List (String × Json))) :
    lookupField (bodyData query vars) "query" = some (Json.str query) ∧
    (lookupField (bodyData query vars) "variables").isSome = vars.isSome ∧
    (∀ vs, lookupField (bodyData query (some vs)) "variables" = some (Json.obj vs)) := by
  cases vars <;> exact ⟨rfl, rfl, fun vs => rfl⟩

/-- C3 counterexample: at HTTP 500 with parsed JSON body carrying
`message = "boom"`, the result is not the envelope the claim states,
because the synthesized message is "NCI PDC API HTTP Error 500", not
"API Error 500". -/
theorem pdcQuery_httpError_message_cex :
    executePdcGraphQLQuery "q" none (FetchOutcome.response
      ⟨500, some "application/json", "",
        some (Json.obj [("message", Json.str "boom")])⟩) ≠
    Json.obj [("errors", Json.arr [Json.obj
      [("message", Json.str "API Error 500"),
       ("extensions", Json.obj
         [("statusCode", Json.num 500),
          ("responseBody", Json.obj [("message", Json.str "boom")])])]])] := by
  rw [show executePdcGraphQLQuery "q" none (FetchOutcome.response
      ⟨500, some "application/json", "",
        some (Json.obj [("message", Json.str "boom")])⟩) =
    Json.obj [("errors", Json.arr [Json.obj
      [("message", Json.str "NCI PDC API HTTP Error 500"),
       ("extensions", Json.obj
         [("statusCode", Json.num 500),
          ("responseBody", Json.obj [("message", Json.str "boom")])])]])] from rfl]
  simp

/-- C3 amended: for every upstream response with a non-2xx status and a
JSON-declared, successfully parsed body, the forwarder returns a
synthesized envelope whose single error has message
"NCI PDC API HTTP Error <status>" and extensions containing the status
code and the parsed body. -/
theorem pdcQuery_httpError_envelope (query : String)
    (vars : Option (List (String × Json))) (r : HttpResponse) (b : Json)
    (hct : isJsonContentType r.contentType = true) (hb : r.bodyJson = some b)
    (hs : statusOk r.status = false) :
    executePdcGraphQLQuery query vars (FetchOutcome.response r) =
      Json.obj [("errors", Json.arr [Json.obj
        [("message", Json.str ("NCI PDC API HTTP Error " ++ toString r.status)),
         ("extensions", Json.obj
           [("statusCode", Json.num r.status),
            ("responseBody", b)])]])] :=
  executePdc_httpError query vars r b hct hb hs

/-- C3 witness: HTTP 500 with JSON body `message = "boom"` yields the
amended envelope. -/
theorem pdcQuery_httpError_envelope_witness :
    executePdcGraphQLQuery "q" none (FetchOutcome.response
      ⟨500, some "application/json", "",
        some (Json.obj [("message", Json.str "boom")])⟩) =
    Json.obj [("errors", Json.arr [Json.obj
      [("message", Json.str "NCI PDC API HTTP Error 500"),
       ("extensions", Json.obj
         [("statusCode", Json.num 500),
          ("responseBody", Json.obj [("message", Json.str "boom")])])]])] :=
  pdcQuery_httpError_envelope "q" none _ _ (by decide) rfl (by decide)

/-- C4 counterexample: at HTTP 200 with content-type "text/html" and body
"hello", the result is not the envelope the claim states, because the
synthesized message is "NCI PDC API Error 200: Non-JSON response
received.", not "API Error 200: Non-JSON response received.". -/
theorem pdcQuery_nonJson_message_cex :
    executePdcGraphQLQuery "q" none (FetchOutcome.response
      ⟨200, some "text/html", "hello", none⟩) ≠
    Json.obj [("errors", Json.arr [Json.obj
      [("message", Json.str "API Error 200: Non-JSON response received."),
       ("extensions", Json.obj
         [("statusCode", Json.num 200),
          ("contentType", Json.str "text/html"),
          ("responseText", Json.str "hello")])]])] := by
  rw [show executePdcGraphQLQuery "q" none (FetchOutcome.response
      ⟨200, some "text/html", "hello", none⟩) =
    Json.obj [("errors", Json.arr [Json.obj
      [("message", Json.str "NCI PDC API Error 200: Non-JSON response received."),
       ("extensions", Json.obj
         [("statusCode", Json.num 200),
          ("contentType", Json.str "text/html"),
          ("responseText", Json.str "hello")])]])] from rfl]
  simp

/-- C4 amended: for every upstream response whose content-type header
does not declare JSON (including an absent header, embedded as JSON
null), regardless of status, the forwarder returns a synthesized envelope
whose single error has message
"NCI PDC API Error <status>: Non-JSON response received." and extensions
containing the status code, the header value, and the first 1000
characters of the raw body text. -/
theorem pdcQuery_nonJson_envelope (query : String)
    (vars : Option (List (String × Json))) (r : HttpResponse)
    (hct : isJsonContentType r.contentType = false) :
    executePdcGraphQLQuery query vars (FetchOutcome.response r) =
      Json.obj [("errors", Json.arr [Json.obj
        [("message", Json.str
            ("NCI PDC API Error " ++ toString r.status ++ ": Non-JSON response received.")),
         ("extensions", Json.obj
           [("statusCode", Json.num r.status),
            ("contentType", jsonOfContentType r.contentType),
            ("responseText", Json.str (strSlice r.bodyText 1000))])]])] :=
  executePdc_nonJson query vars r hct

/-- C4 witness: HTTP 200 with content-type "text/html" and body "hello"
yields the amended envelope. -/
theorem pdcQuery_nonJson_envelope_witness :
    executePdcGraphQLQuery "q" none (FetchOutcome.response
      ⟨200, some "text/html", "hello", none⟩) =
    Json.obj [("errors", Json.arr [Json.obj
      [("message", Json.str "NCI PDC API Error 200: Non-JSON response received."),
       ("extensions", Json.obj
         [("statusCode", Json.num 200),
          ("contentType", Json.str "text/html"),
          ("responseText", Json.str "hello")])]])] :=
  pdcQuery_nonJson_envelope "q" none _ (by decide)

/-- C5 counterexample: at HTTP 200 with a JSON-declared content-type but
an unparseable body "not json", the result is not the envelope the claim
states, because the synthesized message is "NCI PDC API Error 200: Failed
to parse JSON response.", not "API Error 200: Failed to parse JSON
response.". -/
theorem pdcQuery_parseFail_message_cex :
    executePdcGraphQLQuery "q" none (FetchOutcome.response
      ⟨200, some "application/json", "not json", none⟩) ≠
    Json.obj [("errors", Json.arr [Json.obj
      [("message", Json.str "API Error 200: Failed to parse JSON response."),
       ("extensions", Json.obj
         [("statusCode", Json.num 200),
          ("responseText", Json.str "not json")])]])] := by
  rw [show executePdcGraphQLQuery "q" none (FetchOutcome.response
      ⟨200, some "application/json", "not json", none⟩) =
    Json.obj [("errors", Json.arr [Json.obj
      [("message", Json.str "NCI PDC API Error 200: Failed to parse JSON response."),
       ("extensions", Json.obj
         [("statusCode", Json.num 200),
          ("responseText", Json.str "not json")])]])] from rfl]
  simp

/-- C5 amended: for every upstream response whose content-type declares
JSON but whose body fails to parse as JSON, the forwarder returns a
synthesized envelope whose single error has message
"NCI PDC API Error <status>: Failed to parse JSON response." and
extensions containing the status code and the first 1000 characters of
the raw body. -/
theorem pdcQuery_parseFail_envelope (query : String)
    (vars : Option (List (String × Json))) (r : HttpResponse)
    (hct : isJsonContentType r.contentType = true) (hb : r.bodyJson = none) :
    executePdcGraphQLQuery query vars (FetchOutcome.response r) =
      Json.obj [("errors", Json.arr [Json.obj
        [("message", Json.str
            ("NCI PDC API Error " ++ toString r.status ++ ": Failed to parse JSON response.")),
         ("extensions", Json.obj
           [("statusCode", Json.num r.status),
            ("responseText", Json.str (strSlice r.bodyText 1000))])]])] :=
  executePdc_parseFail query vars r hct hb

/-- C5 witness: HTTP 200 declaring JSON with unparseable body "not json"
yields the amended envelope. -/
theorem pdcQuery_parseFail_envelope_witness :
    executePdcGraphQLQuery "q" none (FetchOutcome.response
      ⟨200, some "application/json", "not json", none⟩) =
    Json.obj [("errors", Json.arr [Json.obj
      [("message", Json.str "NCI PDC API Error 200: Failed to parse JSON response."),
       ("extensions", Json.obj
         [("statusCode", Json.num 200),
          ("responseText", Json.str "not json")])]])] :=
  pdcQuery_parseFail_envelope "q" none _ (by decide) rfl

/-- C7: in both synthesizing branches that embed the raw body (non-JSON
content-type, and JSON parse failure), the embedded `responseText` is
`strSlice bodyText 1000`, which is a prefix of the body of length
`min (length of body) 1000`. -/
theorem pdcQuery_responseText_truncated (query : String)
    (vars : Option (List (String × Json))) (r : HttpResponse) :
    (isJsonContentType r.contentType = false →
      errorResponseText (executePdcGraphQLQuery query vars (FetchOutcome.response r)) =
        some (Json.str (strSlice r.bodyText 1000))) ∧
    (isJsonContentType r.contentType = true → r.bodyJson = none →
      errorResponseText (executePdcGraphQLQuery query vars (FetchOutcome.response r)) =
        some (Json.str (strSlice r.bodyText 1000))) ∧
    (strSlice r.bodyText 1000).length = min r.bodyText.length 1000 ∧
    (∃ t, (strSlice r.bodyText 1000).data ++ t = r.bodyText.data) := by
  refine ⟨fun hct => ?_, fun hct hb => ?_, ?_,
    ⟨r.bodyText.data.drop 1000, List.take_append_drop _ _⟩⟩
  · rw [executePdc_nonJson query vars r hct]; rfl
  · rw [executePdc_parseFail query vars r hct hb]; rfl
  · show (r.bodyText.data.take 1000).length = min r.bodyText.data.length 1000
    exact (List.length_take _ _).trans (Nat.min_comm _ _)

/-- C7 witness: a body of exactly 1001 characters, arriving with no
content-type header, is embedded as a `responseText` of exactly 1000
characters. -/
theorem pdcQuery_responseText_truncated_witness :
    errorResponseText (executePdcGraphQLQuery "q" none (FetchOutcome.response
      ⟨200, none, String.mk (List.replicate 1001 'a'), none⟩)) =
      some (Json.str (strSlice (String.mk (List.replicate 1001 'a')) 1000)) ∧
    (strSlice (String.mk (List.replicate 1001 'a')) 1000).length = 1000 := by
  have h := pdcQuery_responseText_truncated "q" none
    ⟨200, none, String.mk (List.replicate 1001 'a'), none⟩
  refine ⟨h.1 rfl, (h.2.2.1).trans ?_⟩
  show min (List.replicate 1001 'a').length 1000 = 1000
  rw [List.length_replicate]
  decide

/-- C9: the forwarder classifies a response as JSON exactly when its
content-type header is present and contains the substring
"application/json"; in particular a present header "text/json" is routed
to the non-JSON error branch even with a 2xx status and a body that
parses as JSON. -/
theorem pdcQuery_json_classification (ct : Option String) (query : String)
    (vars : Option (List (String × Json))) (body : String) (b : Json) :
    (isJsonContentType ct = true ↔
      ∃ s, ct = some s ∧ strIncludes s "application/json" = true) ∧
    executePdcGraphQLQuery query vars (FetchOutcome.response
        ⟨200, some "text/json", body, some b⟩) =
      Json.obj [("errors", Json.arr [Json.obj
        [("message", Json.str "NCI PDC API Error 200: Non-JSON response received."),
         ("extensions", Json.obj
           [("statusCode", Json.num 200),
            ("contentType", Json.str "text/json"),
            ("responseText", Json.str (strSlice body 1000))])]])] := by
  constructor
  · cases ct with
    | none => simp [isJsonContentType]
    | some s =>
      simp only [isJsonContentType, Option.some.injEq]
      constructor
      · intro h
        simp only [Bool.and_eq_true] at h
        exact ⟨s, rfl, h.2⟩
      · rintro ⟨s', hs', hincl⟩
        cases hs'
        simp only [Bool.and_eq_true]
        refine ⟨?_, hincl⟩
        by_cases he : s = ""
        · subst he
          exact absurd hincl (by decide)
        · simp [he]
  · rw [executePdc_nonJson query vars ⟨200, some "text/json", body, some b⟩ rfl]
    dsimp only [mkErrorEnvelope, jsonOfContentType]
    rw [show ("NCI PDC API Error " ++ toString (200 : Nat) ++ ": Non-JSON response received.") =
      "NCI PDC API Error 200: Non-JSON response received." from rfl]
    rfl

/-- C10: every inbound path other than "/sse" and its "/sse/" subpaths
receives the fixed 404 text/plain response whose body lists "/sse";
exactly the "/sse" path and its subpaths are routed to the streaming
transport. -/
theorem fetchHandler_routing (p : String) :
    ((p == "/sse" || strStartsWith p "/sse/") = false →
      fetchHandler p = RouteResult.plain ⟨404, some "text/plain", notFoundBody⟩) ∧
    (fetchHandler p = RouteResult.sse ↔ (p == "/sse" || strStartsWith p "/sse/") = true) ∧
    strIncludes notFoundBody "/sse" = true := by
  cases h : (p == "/sse" || strStartsWith p "/sse/") with
  | true =>
    refine ⟨fun hf => Bool.noConfusion hf, ?_, by decide⟩
    simp [fetchHandler, h]
  | false =>
    refine ⟨fun _ => ?_, ?_, by decide⟩
    · simp [fetchHandler, h]
    · simp [fetchHandler, h]

/-- C10 witness: the path "/foo" receives the fixed 404 response. -/
theorem fetchHandler_routing_witness :
    fetchHandler "/foo" = RouteResult.plain ⟨404, some "text/plain", notFoundBody⟩ :=
  (fetchHandler_routing "/foo").1 (by decide)
